import Mathlib

/-!
Verification development for the Inventory-Management-Backend repository.

The embedded code comes from two places:
* the JavaScript services present in the repository
  (`src/services/StockFlowCalculation.js`, `src/services/MAPECalculator.js`,
  `src/services/AlertGenerator.js`), translated function-by-function with
  JavaScript numbers modelled as exact rationals (`ℚ`); and
* the Python demand-forecasting engine, whose source files
  (`feature_engineering.py`, `training.py`, `prediction.py`, `validation.py`)
  are not part of the repository snapshot — only their documentation and
  callers are.  Those parts are modelled from the specification text and each
  such definition carries a doc comment starting `Modelled from the spec:`.
-/

namespace InventoryBackend

/-! ## StockFlowCalculation.js — `FreshFlowStockCalculator` -/

/-- `fetchAIPrediction(itemId, days)` from `src/services/StockFlowCalculation.js`.
The implementation ignores the item and returns `10 * days`
("Dummy data: assumes sales rate of approx 10 items/day").
The returned value is a bare number: the interface has no error channel and
no flag accompanying the scaling. -/
def fetchAIPrediction (_itemId : String) (days : ℚ) : ℚ :=
  10 * days

/-- Result object of `calculateStockNeeds` in `src/services/StockFlowCalculation.js`
(the nested `details` object is flattened into the last four fields). -/
structure StockCalculation where
  menuItemId : String
  inputDays : ℚ
  predictedDemand : ℚ
  dailyRate : ℚ
  aimStockLevel : ℤ
  currentStock : ℚ
  calculatedStock : ℚ
  leadTimeDemand : ℚ
  cycleDemand : ℚ
  baseDemand : ℚ
  bufferUsed : ℚ
  deriving Repr, DecidableEq

/-- `calculateStockNeeds(menuItemId, predictedDemand, currentStock, days, leadTime, buffer)`
from `src/services/StockFlowCalculation.js` (defaults: `days = 7`,
`leadTime = 2`, `buffer = 1.2`). `Math.ceil` becomes `Int.ceil` and
`Math.max(0, _)` becomes `max 0 _`. -/
def calculateStockNeeds (menuItemId : String) (predictedDemand currentStock : ℚ)
    (days : ℚ := 7) (leadTime : ℚ := 2) (buffer : ℚ := 6/5) : StockCalculation :=
  let dailyRate := predictedDemand / days
  let leadTimeDemand := dailyRate * leadTime
  let cycleDemand := predictedDemand
  let baseDemand := leadTimeDemand + cycleDemand
  let aimStockLevel : ℤ := ⌈baseDemand * buffer⌉
  let replenishmentNeeded : ℚ := max 0 ((aimStockLevel : ℚ) - currentStock)
  { menuItemId := menuItemId
    inputDays := days
    predictedDemand := predictedDemand
    dailyRate := dailyRate
    aimStockLevel := aimStockLevel
    currentStock := currentStock
    calculatedStock := replenishmentNeeded
    leadTimeDemand := leadTimeDemand
    cycleDemand := cycleDemand
    baseDemand := baseDemand
    bufferUsed := buffer }

/-! ## MAPECalculator.js — `calculateItemMAPE` -/

/-- One forecast row as read by `calculateItemMAPE`
(`Forecast.find` result: target date key and `predictedQuantity`). -/
structure ForecastEntry where
  targetDate : String
  predictedQuantity : ℚ
  deriving Repr, DecidableEq

/-- The body of the per-forecast loop of `calculateItemMAPE`
(`src/services/MAPECalculator.js`, lines 55-82): accumulator is
`(totalErrorPercent, count)`; `actual = 0` with `predicted = 0` only
increments the count, `actual = 0` with `predicted ≠ 0` adds a full `1`
(100% error), otherwise the absolute percentage error is added. -/
def mapeStep (acc : ℚ × ℕ) (actual predicted : ℚ) : ℚ × ℕ :=
  if actual = 0 then
    if predicted = 0 then (acc.1, acc.2 + 1)
    else (acc.1 + 1, acc.2 + 1)
  else (acc.1 + |(actual - predicted) / actual|, acc.2 + 1)

/-- `parseFloat(x.toFixed(4))`: rounding to four decimal places. -/
def round4 (x : ℚ) : ℚ := (round (x * 10000) : ℤ) / 10000

/-- Return shape of `calculateItemMAPE`: the three return sites produce
`{mape: 0, message}`, `{mape: 0, count: 0}` and
`{mape, daysAnalyzed}`; all carry a `mape` and a day count
(`0` on the two degenerate sites). -/
structure MAPEResult where
  mape : ℚ
  daysAnalyzed : ℕ
  deriving Repr, DecidableEq

/-- `calculateItemMAPE` from `src/services/MAPECalculator.js`, with the two
database reads supplied as arguments: `forecasts` is the fetched forecast
list and `salesByDay` the per-day aggregated sales
(`salesMap`); the lookup `salesMap[dateKey] || 0` becomes
`(List.lookup …).getD 0`. -/
def calculateItemMAPE (forecasts : List ForecastEntry)
    (salesByDay : List (String × ℚ)) : MAPEResult :=
  if forecasts = [] then { mape := 0, daysAnalyzed := 0 }
  else
    let acc := forecasts.foldl
      (fun acc f => mapeStep acc ((salesByDay.lookup f.targetDate).getD 0)
        f.predictedQuantity) (0, 0)
    if acc.2 = 0 then { mape := 0, daysAnalyzed := 0 }
    else { mape := round4 (acc.1 / (acc.2 : ℚ)), daysAnalyzed := acc.2 }

/-! ## AlertGenerator.js — stock alerts -/

/-- The fields of a stock-calculation result that `AlertGenerator.evaluateItem`
destructures (`src/services/AlertGenerator.js`, line 193). -/
structure StockItemResult where
  menuItemId : String
  currentStock : ℚ
  aimStockLevel : ℚ
  calculatedStock : ℚ
  itemType : String
  deriving Repr, DecidableEq

/-- Alert object produced by `AlertGenerator.evaluateItem`.  The interpolated
display strings `message` and `action` are omitted: they are built from the
same numbers carried here and play no role in severity classification. -/
structure StockAlert where
  menuItemId : String
  severity : String
  title : String
  itemType : String
  deriving Repr, DecidableEq

/-- `AlertGenerator.evaluateItem(itemResult, lowStockThreshold)` from
`src/services/AlertGenerator.js` lines 192-257: skip trivial items
(`aimStockLevel < 2 && currentStock > 0`), then CRITICAL Out of Stock,
CRITICAL Critically Low Stock / WARNING Replenishment Needed,
INFO Overstocked, else no alert. -/
def evaluateItem (itemResult : StockItemResult) (lowStockThreshold : ℚ) :
    Option StockAlert :=
  if itemResult.aimStockLevel < 2 ∧ itemResult.currentStock > 0 then none
  else if itemResult.currentStock ≤ 0 then
    some { menuItemId := itemResult.menuItemId
           severity := "CRITICAL"
           title := "Out of Stock"
           itemType := itemResult.itemType }
  else if itemResult.currentStock < itemResult.aimStockLevel then
    let stockHealth := itemResult.currentStock / itemResult.aimStockLevel * 100
    if stockHealth < lowStockThreshold then
      some { menuItemId := itemResult.menuItemId
             severity := "CRITICAL"
             title := "Critically Low Stock"
             itemType := itemResult.itemType }
    else
      some { menuItemId := itemResult.menuItemId
             severity := "WARNING"
             title := "Replenishment Needed"
             itemType := itemResult.itemType }
  else if itemResult.currentStock > itemResult.aimStockLevel * 2 then
    some { menuItemId := itemResult.menuItemId
           severity := "INFO"
           title := "Overstocked"
           itemType := itemResult.itemType }
  else none

/-- `AlertGenerator.generateStockAlerts(stockResults, lowStockThreshold)`:
evaluate each item, keep the non-null alerts (default threshold `20`). -/
def generateStockAlerts (stockResults : List StockItemResult)
    (lowStockThreshold : ℚ := 20) : List StockAlert :=
  stockResults.filterMap (fun item => evaluateItem item lowStockThreshold)

/-- Summary object of `AlertGenerator.getDashboardSummary`. -/
structure DashboardSummary where
  totalAlerts : ℕ
  critical : ℕ
  warning : ℕ
  info : ℕ
  items : List StockAlert
  deriving Repr, DecidableEq

/-- `AlertGenerator.getDashboardSummary(alerts)` from
`src/services/AlertGenerator.js` lines 268-276. -/
def getDashboardSummary (alerts : List StockAlert) : DashboardSummary :=
  { totalAlerts := alerts.length
    critical := (alerts.filter (fun a => a.severity == "CRITICAL")).length
    warning := (alerts.filter (fun a => a.severity == "WARNING")).length
    info := (alerts.filter (fun a => a.severity == "INFO")).length
    items := alerts }

/-! ## Demand-forecasting engine

The Python sources (`validation.py`, `feature_engineering.py`,
`prediction.py`, `training.py`) are not in the repository snapshot; the
definitions below are modelled from the specification and from the
repository's own documentation of those modules. -/

/-- Modelled from the spec: `validation.py` is missing; a digit test for the
`YYYY-MM-DD` date-format check of `validate_prediction_inputs`. -/
def isDigitChar (c : Char) : Bool :=
  48 ≤ c.toNat ∧ c.toNat ≤ 57

/-- Numeric value of a decimal digit character. -/
def digitVal (c : Char) : ℕ := c.toNat - 48

/-- Decimal value of a digit string. -/
def digitsToNat (cs : List Char) : ℕ :=
  cs.foldl (fun n c => 10 * n + digitVal c) 0

/-- Split a character list at every dash. -/
def splitDashAux : List Char → List Char → List (List Char)
  | [], acc => [acc.reverse]
  | c :: rest, acc =>
      if c = '-' then acc.reverse :: splitDashAux rest []
      else splitDashAux rest (c :: acc)

/-- Split a character list at every dash (entry point). -/
def splitDash (cs : List Char) : List (List Char) := splitDashAux cs []

/-- Gregorian leap-year rule. -/
def isLeapYear (y : ℕ) : Bool :=
  y % 4 = 0 ∧ (y % 100 ≠ 0 ∨ y % 400 = 0)

/-- Number of days in a calendar month. -/
def daysInMonth (y m : ℕ) : ℕ :=
  if m = 1 ∨ m = 3 ∨ m = 5 ∨ m = 7 ∨ m = 8 ∨ m = 10 ∨ m = 12 then 31
  else if m = 4 ∨ m = 6 ∨ m = 9 ∨ m = 11 then 30
  else if isLeapYear y then 29 else 28

/-- Modelled from the spec: `validation.py` is missing; parse a string of the
exact shape `YYYY-MM-DD` (four digits, dash, two digits, dash, two digits)
into its numeric components, or fail. -/
def parseYMD (s : String) : Option (ℕ × ℕ × ℕ) :=
  match splitDash s.toList with
  | [ys, ms, ds] =>
      if ys.length = 4 ∧ ms.length = 2 ∧ ds.length = 2 ∧
          (ys ++ ms ++ ds).all isDigitChar then
        some (digitsToNat ys, digitsToNat ms, digitsToNat ds)
      else none
  | _ => none

/-- Modelled from the spec: `validation.py` is missing; a date string is
valid when it has the `YYYY-MM-DD` shape and names a real calendar day. -/
def isValidDate (s : String) : Bool :=
  match parseYMD s with
  | some (y, m, d) => 1 ≤ m ∧ m ≤ 12 ∧ 1 ≤ d ∧ d ≤ daysInMonth y m
  | none => false

/-- Error taxonomy of `validate_prediction_inputs`: one distinct,
identifiable `ValidationError` per offending input. -/
inductive ValidationError where
  | nonPositiveItemId
  | nonPositivePlaceId
  | invalidDateFormat
  | invalidPeriod
  deriving Repr, DecidableEq

/-- The three recognized training/prediction periods. -/
def recognizedPeriods : List String := ["daily", "weekly", "monthly"]

/-- Modelled from the spec: `validation.py` is missing;
`validate_prediction_inputs(item_id, place_id, date, period)` fails with a
`ValidationError` when `item_id`/`place_id` are not positive integers, when
`date` does not parse as `YYYY-MM-DD`, or when `period` is not one of the
three recognized values. -/
def validate_prediction_inputs (item_id place_id : ℤ) (date : String)
    (period : String) : Except ValidationError Unit :=
  if item_id ≤ 0 then .error .nonPositiveItemId
  else if place_id ≤ 0 then .error .nonPositivePlaceId
  else if ¬ isValidDate date then .error .invalidDateFormat
  else if ¬ period ∈ recognizedPeriods then .error .invalidPeriod
  else .ok ()

/-- Modelled from the spec: a Demand Observation, the atomic unit of the
training series: `(item_id, place_id, date, demand)` with the date as the
index of the day in the contiguous daily series. -/
structure DemandObs where
  item_id : ℤ
  place_id : ℤ
  date : ℕ
  demand : ℚ
  deriving Repr, DecidableEq

/-- Modelled from the spec: the global fallback statistics recorded in the
trained artifact (global average demand, price, and place demand). -/
structure GlobalStats where
  avg_demand : ℚ
  avg_price : ℚ
  avg_place_demand : ℚ
  deriving Repr, DecidableEq

/-- Modelled from the spec: the week-aggregation rolls a date back to the
start of its 7-day block. -/
def weekStart (d : ℕ) : ℕ := d - d % 7

/-- Modelled from the spec: `training.py` is missing; for `period=weekly`
the training label of an (item, place, week-start) group is the sum of the
demand of all of the group's Demand Observations whose week-start equals the
given one ("rolls dates back to start of week, sums all demand within each
week"). -/
def weeklyLabel (obs : List DemandObs) (item place : ℤ) (ws : ℕ) : ℚ :=
  ((obs.filter (fun o =>
      o.item_id = item ∧ o.place_id = place ∧ weekStart o.date = ws)).map
    (fun o => o.demand)).sum

/-- Modelled from the spec: the contiguous zero-filled daily series of one
(item, place) pair — exactly one observation per day `0, …, n-1`, with the
day-`d` demand given by `f d`. -/
def dailySeries (item place : ℤ) (f : ℕ → ℚ) (n : ℕ) : List DemandObs :=
  (List.range n).map (fun d => ⟨item, place, d, f d⟩)

/-- Modelled from the spec: `feature_engineering.py` is missing; the lag
feature: the demand value `k` days prior to the target date `D`.  Lags that
reach beyond the start of history are filled from the global fallback
average, never zero. -/
def lagFeature (hist : ℕ → ℚ) (gs : GlobalStats) (k D : ℕ) : ℚ :=
  if k ≤ D then hist (D - k) else gs.avg_demand

/-- Modelled from the spec: `feature_engineering.py` is missing; the
trailing mean over the `w`-day window ending the day before `D` (exclusive
of the target day); windows reaching beyond the start of history fall back
to the global average. -/
def rollingMean (hist : ℕ → ℚ) (gs : GlobalStats) (w D : ℕ) : ℚ :=
  if w ≤ D then (∑ i in Finset.range w, hist (D - w + i)) / w
  else gs.avg_demand

/-- Modelled from the spec: `feature_engineering.py` is missing; the
trailing population variance over the same exclusive window.  The source's
rolling standard deviation is the square root of this value, hence
determined by it; the variance is kept so the embedding stays rational. -/
def rollingVar (hist : ℕ → ℚ) (gs : GlobalStats) (w D : ℕ) : ℚ :=
  if w ≤ D then
    (∑ i in Finset.range w, (hist (D - w + i) - rollingMean hist gs w D) ^ 2) / w
  else 0

/-- Standard recursive exponential moving average over a chronological list
of values, smoothing factor `a`. -/
def emaFold (a : ℚ) (xs : List ℚ) : ℚ :=
  xs.foldl (fun acc x => a * x + (1 - a) * acc) 0

/-- Modelled from the spec: `feature_engineering.py` is missing; the EMA
feature at smoothing factor `a` is the EMA of the demand series over the
days strictly before the target date `D`. -/
def emaFeature (a : ℚ) (hist : ℕ → ℚ) (D : ℕ) : ℚ :=
  emaFold a ((List.range D).map hist)

/-- Modelled from the spec: `feature_engineering.py` is missing; total
demand across all items at the place, taken from the prior day only. -/
def placeTotalFeature (placeHist : ℕ → ℚ) (gs : GlobalStats) (D : ℕ) : ℚ :=
  if 1 ≤ D then placeHist (D - 1) else gs.avg_place_demand

/-- Modelled from the spec: `feature_engineering.py` is missing; count of
distinct items sold at the place on the prior day. -/
def placeUniqueItemsFeature (placeItems : ℕ → ℚ) (D : ℕ) : ℚ :=
  if 1 ≤ D then placeItems (D - 1) else 0

/-- Modelled from the spec: `feature_engineering.py` is missing; the item's
share of place-level demand on the prior day (zero when the place had no
demand, via the total-function rational division). -/
def itemShareFeature (hist placeHist : ℕ → ℚ) (D : ℕ) : ℚ :=
  if 1 ≤ D then hist (D - 1) / placeHist (D - 1) else 0

/-- The lag, rolling and place-aggregate feature families of one engineered
feature row (the families the no-leakage property quantifies over). -/
structure LagRollingPlaceFeatures where
  demand_lag_1 : ℚ
  demand_lag_2 : ℚ
  demand_lag_3 : ℚ
  demand_lag_7 : ℚ
  demand_lag_14 : ℚ
  demand_lag_30 : ℚ
  demand_same_dow : ℚ
  demand_rolling_mean_7 : ℚ
  demand_rolling_mean_14 : ℚ
  demand_rolling_mean_30 : ℚ
  demand_rolling_var_7 : ℚ
  demand_rolling_var_14 : ℚ
  demand_rolling_var_30 : ℚ
  demand_ema_03 : ℚ
  demand_ema_07 : ℚ
  place_total_demand : ℚ
  place_unique_items : ℚ
  place_demand_rolling_mean_7 : ℚ
  item_share_of_place : ℚ
  deriving Repr, DecidableEq

/-- Modelled from the spec: `feature_engineering.py` is missing; build the
lag/rolling/place-aggregate families for target date `D` from the item's
daily demand series `hist`, the place's daily total-demand series
`placeHist` and the place's daily distinct-item-count series `placeItems`.
Lag days are 1, 2, 3, 7, 14, 30 plus same day-of-week previous week;
rolling windows are 7/14/30 days, exclusive of the target day; EMAs use
smoothing factors 0.3 and 0.7; place aggregates use the prior day only. -/
def buildLagRollingPlaceFeatures (hist placeHist placeItems : ℕ → ℚ)
    (gs : GlobalStats) (D : ℕ) : LagRollingPlaceFeatures :=
  { demand_lag_1 := lagFeature hist gs 1 D
    demand_lag_2 := lagFeature hist gs 2 D
    demand_lag_3 := lagFeature hist gs 3 D
    demand_lag_7 := lagFeature hist gs 7 D
    demand_lag_14 := lagFeature hist gs 14 D
    demand_lag_30 := lagFeature hist gs 30 D
    demand_same_dow := lagFeature hist gs 7 D
    demand_rolling_mean_7 := rollingMean hist gs 7 D
    demand_rolling_mean_14 := rollingMean hist gs 14 D
    demand_rolling_mean_30 := rollingMean hist gs 30 D
    demand_rolling_var_7 := rollingVar hist gs 7 D
    demand_rolling_var_14 := rollingVar hist gs 14 D
    demand_rolling_var_30 := rollingVar hist gs 30 D
    demand_ema_03 := emaFeature (3/10) hist D
    demand_ema_07 := emaFeature (7/10) hist D
    place_total_demand := placeTotalFeature placeHist gs D
    place_unique_items := placeUniqueItemsFeature placeItems D
    place_demand_rolling_mean_7 := rollingMean placeHist gs 7 D
    item_share_of_place := itemShareFeature hist placeHist D }

/-- Modelled from the spec: the calendar components of the query date used
by the temporal feature family (computed upstream by the date parser). -/
structure DateParts where
  year : ℕ
  month : ℕ
  day_of_month : ℕ
  day_of_week : ℕ
  week_of_year : ℕ
  quarter : ℕ
  deriving Repr, DecidableEq

/-- Modelled from the spec: the item static attributes joined onto each
feature row (base catalog price and menu metadata). -/
structure ItemStatic where
  item_base_price : ℚ
  menu_price : ℚ
  menu_status : ℚ
  menu_purchases : ℚ
  deriving Repr, DecidableEq

/-- Modelled from the spec: `feature_engineering.py` is missing; the single
fixed, ordered feature-row shape shared by the training matrix and the
one-row inference path: an ordered list of (column name, value) pairs.  The
four cyclic encodings `month_sin`/`month_cos`/`day_of_week_sin`/
`day_of_week_cos` take irrational values (sines and cosines), so their
numeric encoder `enc` is passed in as a function of the date parts; the
column names and the wiring of every other feature do not depend on it. -/
def featureVectorOf (enc : DateParts → ℚ × ℚ × ℚ × ℚ) (dp : DateParts)
    (fr : LagRollingPlaceFeatures) (itm : ItemStatic) : List (String × ℚ) :=
  [("year", (dp.year : ℚ)),
   ("month", (dp.month : ℚ)),
   ("day_of_month", (dp.day_of_month : ℚ)),
   ("day_of_week", (dp.day_of_week : ℚ)),
   ("week_of_year", (dp.week_of_year : ℚ)),
   ("is_weekend", if dp.day_of_week = 5 ∨ dp.day_of_week = 6 then 1 else 0),
   ("is_month_start", if dp.day_of_month = 1 then 1 else 0),
   ("is_month_end",
     if dp.day_of_month = daysInMonth dp.year dp.month then 1 else 0),
   ("quarter", (dp.quarter : ℚ)),
   ("month_sin", (enc dp).1),
   ("month_cos", (enc dp).2.1),
   ("day_of_week_sin", (enc dp).2.2.1),
   ("day_of_week_cos", (enc dp).2.2.2),
   ("demand_lag_1", fr.demand_lag_1),
   ("demand_lag_2", fr.demand_lag_2),
   ("demand_lag_3", fr.demand_lag_3),
   ("demand_lag_7", fr.demand_lag_7),
   ("demand_lag_14", fr.demand_lag_14),
   ("demand_lag_30", fr.demand_lag_30),
   ("demand_same_dow", fr.demand_same_dow),
   ("demand_rolling_mean_7", fr.demand_rolling_mean_7),
   ("demand_rolling_mean_14", fr.demand_rolling_mean_14),
   ("demand_rolling_mean_30", fr.demand_rolling_mean_30),
   ("demand_rolling_var_7", fr.demand_rolling_var_7),
   ("demand_rolling_var_14", fr.demand_rolling_var_14),
   ("demand_rolling_var_30", fr.demand_rolling_var_30),
   ("demand_ema_03", fr.demand_ema_03),
   ("demand_ema_07", fr.demand_ema_07),
   ("place_total_demand", fr.place_total_demand),
   ("place_unique_items", fr.place_unique_items),
   ("place_demand_rolling_mean_7", fr.place_demand_rolling_mean_7),
   ("item_share_of_place", fr.item_share_of_place),
   ("item_base_price", itm.item_base_price),
   ("menu_price", itm.menu_price),
   ("menu_status", itm.menu_status),
   ("menu_purchases", itm.menu_purchases)]

/-- The fixed ordered feature-column schema recorded in the artifact at
training time. -/
def feature_columns : List String :=
  ["year", "month", "day_of_month", "day_of_week", "week_of_year",
   "is_weekend", "is_month_start", "is_month_end", "quarter",
   "month_sin", "month_cos", "day_of_week_sin", "day_of_week_cos",
   "demand_lag_1", "demand_lag_2", "demand_lag_3", "demand_lag_7",
   "demand_lag_14", "demand_lag_30", "demand_same_dow",
   "demand_rolling_mean_7", "demand_rolling_mean_14",
   "demand_rolling_mean_30", "demand_rolling_var_7",
   "demand_rolling_var_14", "demand_rolling_var_30",
   "demand_ema_03", "demand_ema_07", "place_total_demand",
   "place_unique_items", "place_demand_rolling_mean_7",
   "item_share_of_place", "item_base_price", "menu_price",
   "menu_status", "menu_purchases"]

/-- Modelled from the spec: `feature_engineering.py` is missing; the
history-based single-row construction used identically by training and
inference. -/
def buildFeatureVector (enc : DateParts → ℚ × ℚ × ℚ × ℚ) (dp : DateParts)
    (hist placeHist placeItems : ℕ → ℚ) (gs : GlobalStats) (itm : ItemStatic)
    (D : ℕ) : List (String × ℚ) :=
  featureVectorOf enc dp (buildLagRollingPlaceFeatures hist placeHist
    placeItems gs D) itm

/-- Modelled from the spec: `prediction.py` is missing; the cold-start
fallback values of the lag/rolling/place families: lag, rolling-mean and
EMA features are set to the global average demand (never zero), place-demand
features to the global average place demand, the share feature to their
ratio; the variance fallbacks are zero and the distinct-item-count fallback
is the neutral one item (the spec fixes only the three global averages). -/
def fallbackFeatures (gs : GlobalStats) : LagRollingPlaceFeatures :=
  { demand_lag_1 := gs.avg_demand
    demand_lag_2 := gs.avg_demand
    demand_lag_3 := gs.avg_demand
    demand_lag_7 := gs.avg_demand
    demand_lag_14 := gs.avg_demand
    demand_lag_30 := gs.avg_demand
    demand_same_dow := gs.avg_demand
    demand_rolling_mean_7 := gs.avg_demand
    demand_rolling_mean_14 := gs.avg_demand
    demand_rolling_mean_30 := gs.avg_demand
    demand_rolling_var_7 := 0
    demand_rolling_var_14 := 0
    demand_rolling_var_30 := 0
    demand_ema_03 := gs.avg_demand
    demand_ema_07 := gs.avg_demand
    place_total_demand := gs.avg_place_demand
    place_unique_items := 1
    place_demand_rolling_mean_7 := gs.avg_place_demand
    item_share_of_place := gs.avg_demand / gs.avg_place_demand }

/-- Modelled from the spec: `prediction.py` is missing; the global-fallback
feature row fed to the model on the cold-start branch. -/
def fallbackFeatureVector (enc : DateParts → ℚ × ℚ × ℚ × ℚ) (dp : DateParts)
    (gs : GlobalStats) (itm : ItemStatic) : List (String × ℚ) :=
  featureVectorOf enc dp (fallbackFeatures gs) itm

/-- Modelled from the spec: the Trained Model Artifact: the fitted model is
abstracted as its prediction function on a scaled-and-ordered numeric row
(ensembles average inside this function), together with the ordered
feature-column schema recorded at training time, the global fallback
statistics and the metadata tags. -/
structure Artifact where
  feature_columns : List String
  model : List ℚ → ℚ
  global_stats : GlobalStats
  period : String
  model_type : String

/-- Prediction-time error taxonomy of the engine. -/
inductive PredictError where
  | validationError (e : ValidationError)
  | schemaMismatch
  | artifactUnavailable
  deriving Repr, DecidableEq

/-- Modelled from the spec: the inference row is re-indexed against the
artifact's recorded training schema; a mismatch is fatal
(`SchemaMismatchError`) and is never silently coerced. -/
def reindexRow (cols : List String) (row : List (String × ℚ)) :
    Except PredictError (List ℚ) :=
  if row.map Prod.fst = cols then Except.ok (row.map Prod.snd)
  else Except.error PredictError.schemaMismatch

/-- Structured result of one prediction query. -/
structure PredictionResult where
  item_id : ℤ
  place_id : ℤ
  date : String
  period : String
  predicted_demand : ℚ
  is_cold_start : Bool
  model_type : String
  deriving Repr, DecidableEq

/-- The historical demand rows of one (item, place) pair. -/
def historyFor (obs : List DemandObs) (item place : ℤ) : List DemandObs :=
  obs.filter (fun o => o.item_id = item ∧ o.place_id = place)

/-- Daily demand series of one (item, place) pair derived from the
observations (absent days sum to zero). -/
def itemDemandSeries (obs : List DemandObs) (item place : ℤ) : ℕ → ℚ :=
  fun t => (((historyFor obs item place).filter (fun o => o.date = t)).map
    (fun o => o.demand)).sum

/-- Daily total-demand series of a place derived from the observations. -/
def placeDemandSeries (obs : List DemandObs) (place : ℤ) : ℕ → ℚ :=
  fun t => ((obs.filter (fun o => o.place_id = place ∧ o.date = t)).map
    (fun o => o.demand)).sum

/-- Daily distinct-item-count series of a place derived from the
observations. -/
def placeItemCountSeries (obs : List DemandObs) (place : ℤ) : ℕ → ℚ :=
  fun t => (((obs.filter (fun o => o.place_id = place ∧ o.date = t)).map
    (fun o => o.item_id)).dedup.length : ℚ)

/-- Modelled from the spec: `prediction.py` is missing; answer one already
validated Prediction Query against a trained artifact.  Cold start — an
(item, place) pair with zero historical rows — is a first-class success
branch: the model is fed the global-fallback feature row and the result is
flagged `is_cold_start = true`.  Otherwise the feature row is built from the
actual history exactly as at training time.  Either row is re-indexed
against the artifact's recorded schema before the model is applied. -/
def predict_demand (artifact : Artifact) (enc : DateParts → ℚ × ℚ × ℚ × ℚ)
    (obs : List DemandObs) (item place : ℤ) (dateStr : String)
    (dp : DateParts) (D : ℕ) (itm : ItemStatic) :
    Except PredictError PredictionResult :=
  if (historyFor obs item place).length = 0 then
    match reindexRow artifact.feature_columns
        (fallbackFeatureVector enc dp artifact.global_stats itm) with
    | Except.ok v => Except.ok
        { item_id := item, place_id := place, date := dateStr,
          period := artifact.period, predicted_demand := artifact.model v,
          is_cold_start := true, model_type := artifact.model_type }
    | Except.error e => Except.error e
  else
    match reindexRow artifact.feature_columns
        (buildFeatureVector enc dp (itemDemandSeries obs item place)
          (placeDemandSeries obs place) (placeItemCountSeries obs place)
          artifact.global_stats itm D) with
    | Except.ok v => Except.ok
        { item_id := item, place_id := place, date := dateStr,
          period := artifact.period, predicted_demand := artifact.model v,
          is_cold_start := false, model_type := artifact.model_type }
    | Except.error e => Except.error e

/-- Modelled from the spec: the JSON body of a `/api/demand/predict`
request: each required field may be absent, plus the optional `period`. -/
structure PredictRequest where
  item_id : Option ℤ
  place_id : Option ℤ
  date : Option String
  period : Option String

/-- Modelled from the spec: the response shapes of the prediction endpoint:
success, a 400-equivalent carrying the offending-field list, a
503-equivalent when no trained artifact exists, and a 500-equivalent for
internal faults. -/
inductive ApiResponse where
  | ok (result : PredictionResult)
  | badRequest (offending : List String)
  | serviceUnavailable (msg : String)
  | internalError (msg : String)

/-- Modelled from the spec: the required fields of a prediction request that
are missing or malformed, in the fixed order item_id, place_id, date.  A
present `item_id`/`place_id` is malformed when not a positive integer; a
present `date` is malformed when it is not a valid `YYYY-MM-DD` day. -/
def offendingFields (r : PredictRequest) : List String :=
  (match r.item_id with
   | none => ["item_id"]
   | some i => if i ≤ 0 then ["item_id"] else []) ++
  (match r.place_id with
   | none => ["place_id"]
   | some p => if p ≤ 0 then ["place_id"] else []) ++
  (match r.date with
   | none => ["date"]
   | some d => if isValidDate d then [] else ["date"])

/-- Modelled from the spec: the prediction endpoint handler.  Missing or
malformed required fields yield the 400-equivalent response enumerating
exactly the offending fields; with a well-formed request but no trained
artifact the 503-equivalent is returned; otherwise the predictor runs. -/
def handlePredict (artifact? : Option Artifact)
    (enc : DateParts → ℚ × ℚ × ℚ × ℚ) (obs : List DemandObs)
    (dp : DateParts) (D : ℕ) (itm : ItemStatic) (r : PredictRequest) :
    ApiResponse :=
  if offendingFields r = [] then
    match artifact? with
    | none =>
        ApiResponse.serviceUnavailable
          "Model is not trained. Please train the model first."
    | some artifact =>
        match r.item_id, r.place_id, r.date with
        | some item, some place, some d =>
            match predict_demand artifact enc obs item place d dp D itm with
            | Except.ok res => ApiResponse.ok res
            | Except.error _ => ApiResponse.internalError "Internal server error"
        | _, _, _ => ApiResponse.internalError "Internal server error"
  else ApiResponse.badRequest (offendingFields r)

/-! ## Helper lemmas -/

/-- Weekly label of a per-day generated observation list: an ite-sum over
the generating days. -/
theorem weeklyLabel_map_eq (item place : ℤ) (f : ℕ → ℚ) (ws : ℕ)
    (l : List ℕ) :
    weeklyLabel (l.map (fun d => ⟨item, place, d, f d⟩)) item place ws
      = (l.map (fun d => if weekStart d = ws then f d else 0)).sum := by
  simp only [weeklyLabel]
  induction l with
  | nil => simp
  | cons d rest ih =>
      rw [List.map_cons, List.filter_cons]
      simp at ih
      by_cases h : weekStart d = ws
      · simp [h, ih]
      · simp [h, ih]

/-- Sum of a mapped range list as a `Finset.range` sum. -/
theorem list_range_map_sum (n : ℕ) (h : ℕ → ℚ) :
    ((List.range n).map h).sum = ∑ i in Finset.range n, h i := by
  induction n with
  | zero => simp
  | succ n ih =>
      rw [List.range_succ, List.map_append, List.sum_append,
        Finset.sum_range_succ, ih]
      simp

/-- A lag feature with lag at least one day reads only dates before `D`. -/
theorem lagFeature_congr (h₁ h₂ : ℕ → ℚ) (gs : GlobalStats) (k D : ℕ)
    (hk : 1 ≤ k) (hh : ∀ t, t < D → h₁ t = h₂ t) :
    lagFeature h₁ gs k D = lagFeature h₂ gs k D := by
  unfold lagFeature
  split_ifs with h
  · exact hh _ (by omega)
  · rfl

/-- A rolling mean over a window ending the day before `D` reads only dates
before `D`. -/
theorem rollingMean_congr (h₁ h₂ : ℕ → ℚ) (gs : GlobalStats) (w D : ℕ)
    (_hw : 1 ≤ w) (hh : ∀ t, t < D → h₁ t = h₂ t) :
    rollingMean h₁ gs w D = rollingMean h₂ gs w D := by
  unfold rollingMean
  split_ifs with h
  · have hs : ∀ i ∈ Finset.range w, h₁ (D - w + i) = h₂ (D - w + i) := by
      intro i hi
      rw [Finset.mem_range] at hi
      exact hh _ (by omega)
    rw [Finset.sum_congr rfl hs]
  · rfl

/-- A rolling variance over a window ending the day before `D` reads only
dates before `D`. -/
theorem rollingVar_congr (h₁ h₂ : ℕ → ℚ) (gs : GlobalStats) (w D : ℕ)
    (hw : 1 ≤ w) (hh : ∀ t, t < D → h₁ t = h₂ t) :
    rollingVar h₁ gs w D = rollingVar h₂ gs w D := by
  unfold rollingVar
  split_ifs with h
  · have hm := rollingMean_congr h₁ h₂ gs w D hw hh
    have hs : ∀ i ∈ Finset.range w,
        (h₁ (D - w + i) - rollingMean h₁ gs w D) ^ 2
          = (h₂ (D - w + i) - rollingMean h₂ gs w D) ^ 2 := by
      intro i hi
      rw [Finset.mem_range] at hi
      rw [hh _ (by omega), hm]
    rw [Finset.sum_congr rfl hs]
  · rfl

/-- The EMA feature folds only over the days strictly before `D`. -/
theorem emaFeature_congr (a : ℚ) (h₁ h₂ : ℕ → ℚ) (D : ℕ)
    (hh : ∀ t, t < D → h₁ t = h₂ t) :
    emaFeature a h₁ D = emaFeature a h₂ D := by
  unfold emaFeature
  congr 1
  exact List.map_congr_left (fun d hd => hh _ (List.mem_range.mp hd))

/-- The prior-day place total reads only dates before `D`. -/
theorem placeTotalFeature_congr (p₁ p₂ : ℕ → ℚ) (gs : GlobalStats) (D : ℕ)
    (hp : ∀ t, t < D → p₁ t = p₂ t) :
    placeTotalFeature p₁ gs D = placeTotalFeature p₂ gs D := by
  unfold placeTotalFeature
  split_ifs with h
  · exact hp _ (by omega)
  · rfl

/-- The prior-day distinct-item count reads only dates before `D`. -/
theorem placeUniqueItemsFeature_congr (q₁ q₂ : ℕ → ℚ) (D : ℕ)
    (hq : ∀ t, t < D → q₁ t = q₂ t) :
    placeUniqueItemsFeature q₁ D = placeUniqueItemsFeature q₂ D := by
  unfold placeUniqueItemsFeature
  split_ifs with h
  · exact hq _ (by omega)
  · rfl

/-- The prior-day item share reads only dates before `D`. -/
theorem itemShareFeature_congr (h₁ h₂ p₁ p₂ : ℕ → ℚ) (D : ℕ)
    (hh : ∀ t, t < D → h₁ t = h₂ t) (hp : ∀ t, t < D → p₁ t = p₂ t) :
    itemShareFeature h₁ p₁ D = itemShareFeature h₂ p₂ D := by
  unfold itemShareFeature
  split_ifs with h
  · rw [hh _ (by omega), hp _ (by omega)]
  · rfl

/-- All lag/rolling/place-aggregate features at date `D` depend only on the
series values at dates strictly before `D`. -/
theorem buildFeatures_congr (h₁ h₂ p₁ p₂ q₁ q₂ : ℕ → ℚ) (gs : GlobalStats)
    (D : ℕ) (hh : ∀ t, t < D → h₁ t = h₂ t)
    (hp : ∀ t, t < D → p₁ t = p₂ t) (hq : ∀ t, t < D → q₁ t = q₂ t) :
    buildLagRollingPlaceFeatures h₁ p₁ q₁ gs D
      = buildLagRollingPlaceFeatures h₂ p₂ q₂ gs D := by
  unfold buildLagRollingPlaceFeatures
  simp only [LagRollingPlaceFeatures.mk.injEq]
  refine ⟨lagFeature_congr h₁ h₂ gs 1 D (by norm_num) hh,
    lagFeature_congr h₁ h₂ gs 2 D (by norm_num) hh,
    lagFeature_congr h₁ h₂ gs 3 D (by norm_num) hh,
    lagFeature_congr h₁ h₂ gs 7 D (by norm_num) hh,
    lagFeature_congr h₁ h₂ gs 14 D (by norm_num) hh,
    lagFeature_congr h₁ h₂ gs 30 D (by norm_num) hh,
    lagFeature_congr h₁ h₂ gs 7 D (by norm_num) hh,
    rollingMean_congr h₁ h₂ gs 7 D (by norm_num) hh,
    rollingMean_congr h₁ h₂ gs 14 D (by norm_num) hh,
    rollingMean_congr h₁ h₂ gs 30 D (by norm_num) hh,
    rollingVar_congr h₁ h₂ gs 7 D (by norm_num) hh,
    rollingVar_congr h₁ h₂ gs 14 D (by norm_num) hh,
    rollingVar_congr h₁ h₂ gs 30 D (by norm_num) hh,
    emaFeature_congr (3/10) h₁ h₂ D hh,
    emaFeature_congr (7/10) h₁ h₂ D hh,
    placeTotalFeature_congr p₁ p₂ gs D hp,
    placeUniqueItemsFeature_congr q₁ q₂ D hq,
    rollingMean_congr p₁ p₂ gs 7 D (by norm_num) hp,
    itemShareFeature_congr h₁ h₂ p₁ p₂ D hh hp⟩

/-- Dropping all observations dated on or after `D` does not change the
item's demand series at a date before `D`. -/
theorem itemDemandSeries_truncate (obs : List DemandObs) (item place : ℤ)
    (D t : ℕ) (ht : t < D) :
    itemDemandSeries (obs.filter (fun o => o.date < D)) item place t
      = itemDemandSeries obs item place t := by
  unfold itemDemandSeries historyFor
  rw [List.filter_filter, List.filter_filter, List.filter_filter]
  congr 2
  apply List.filter_congr
  intro o _
  by_cases hd : o.date = t
  · simp [hd, ht]
  · simp [hd]

/-- Dropping all observations dated on or after `D` does not change the
place's total-demand series at a date before `D`. -/
theorem placeDemandSeries_truncate (obs : List DemandObs) (place : ℤ)
    (D t : ℕ) (ht : t < D) :
    placeDemandSeries (obs.filter (fun o => o.date < D)) place t
      = placeDemandSeries obs place t := by
  unfold placeDemandSeries
  rw [List.filter_filter]
  congr 2
  apply List.filter_congr
  intro o _
  by_cases hd : o.date = t
  · simp [hd, ht]
  · simp [hd]

/-- Dropping all observations dated on or after `D` does not change the
place's distinct-item-count series at a date before `D`. -/
theorem placeItemCountSeries_truncate (obs : List DemandObs) (place : ℤ)
    (D t : ℕ) (ht : t < D) :
    placeItemCountSeries (obs.filter (fun o => o.date < D)) place t
      = placeItemCountSeries obs place t := by
  unfold placeItemCountSeries
  rw [List.filter_filter]
  congr 3
  refine congrArg _ (List.filter_congr ?_)
  intro o _
  by_cases hd : o.date = t
  · simp [hd, ht]
  · simp [hd]

/-- The running error total of the MAPE loop never decreases. -/
theorem mapeStep_fst_le (acc : ℚ × ℕ) (actual predicted : ℚ) :
    acc.1 ≤ (mapeStep acc actual predicted).1 := by
  unfold mapeStep
  split_ifs with h1 h2
  · exact le_refl _
  · exact le_add_of_nonneg_right zero_le_one
  · exact le_add_of_nonneg_right (abs_nonneg _)

/-- A non-negative accumulator stays non-negative through the MAPE loop. -/
theorem mape_foldl_nonneg (salesByDay : List (String × ℚ))
    (forecasts : List ForecastEntry) (acc : ℚ × ℕ) (h : 0 ≤ acc.1) :
    0 ≤ (forecasts.foldl
      (fun acc f => mapeStep acc ((salesByDay.lookup f.targetDate).getD 0)
        f.predictedQuantity) acc).1 := by
  induction forecasts generalizing acc with
  | nil => exact h
  | cons f rest ih =>
      exact ih _ (le_trans h (mapeStep_fst_le _ _ _))

/-- Rounding to four decimals preserves non-negativity. -/
theorem round4_nonneg (x : ℚ) (h : 0 ≤ x) : 0 ≤ round4 x := by
  unfold round4
  apply div_nonneg _ (by norm_num)
  have : (0 : ℤ) ≤ round (x * 10000) := by
    rw [round_eq]
    apply Int.floor_nonneg.mpr
    positivity
  exact_mod_cast this

/-- Every alert `evaluateItem` emits has one of the three severities. -/
theorem evaluateItem_severity (item : StockItemResult) (t : ℚ) (a : StockAlert)
    (h : evaluateItem item t = some a) :
    a.severity = "CRITICAL" ∨ a.severity = "WARNING" ∨ a.severity = "INFO" := by
  simp only [evaluateItem] at h
  split_ifs at h
  all_goals obtain rfl := (Option.some.inj h).symm
  all_goals simp

/-- A list of alerts whose severities all lie in the three-element set is
partitioned by the three severity filters. -/
theorem alert_count_partition (l : List StockAlert)
    (h : ∀ a ∈ l, a.severity = "CRITICAL" ∨ a.severity = "WARNING" ∨
      a.severity = "INFO") :
    l.length = (l.filter (fun a => a.severity == "CRITICAL")).length +
      (l.filter (fun a => a.severity == "WARNING")).length +
      (l.filter (fun a => a.severity == "INFO")).length := by
  induction l with
  | nil => simp
  | cons a rest ih =>
      have hrest := ih (fun b hb => h b (List.mem_cons_of_mem a hb))
      rcases h a (List.mem_cons_self a rest) with ha | ha | ha <;>
        simp [List.filter_cons, ha, hrest] <;> omega

/-- The ordered name list of any feature vector equals the fixed recorded
schema, independently of every numeric input. -/
theorem featureVectorOf_names (enc : DateParts → ℚ × ℚ × ℚ × ℚ)
    (dp : DateParts) (fr : LagRollingPlaceFeatures) (itm : ItemStatic) :
    (featureVectorOf enc dp fr itm).map Prod.fst = feature_columns := rfl

/-! ## Claim theorems -/

/-- C1: for a contiguous zero-filled daily series, the `period=weekly`
training label of an (item, place, week-start) group equals the exact sum of
the 7 daily Demand Observation values of that week; in particular daily
values `[1,2,3,4,5,6,7]` yield label `28`, the exact sum of those values. -/
theorem weeklyLabel_exact_sum :
    (∀ (item place : ℤ) (f : ℕ → ℚ) (n ws : ℕ), ws % 7 = 0 → ws + 7 ≤ n →
      weeklyLabel (dailySeries item place f n) item place ws
        = ∑ i in Finset.range 7, f (ws + i)) ∧
    weeklyLabel (dailySeries 1 1 (fun d => (d : ℚ) + 1) 7) 1 1 0 = 28 ∧
    (1 : ℚ) + 2 + 3 + 4 + 5 + 6 + 7 = 28 := by
  refine ⟨fun item place f n ws hws hn => ?_, ?_, by norm_num⟩
  · rw [dailySeries, weeklyLabel_map_eq, list_range_map_sum,
      ← Finset.sum_filter]
    have hset : (Finset.range n).filter (fun i => weekStart i = ws)
        = Finset.Ico ws (ws + 7) := by
      ext d
      simp only [Finset.mem_filter, Finset.mem_range, Finset.mem_Ico,
        weekStart]
      omega
    rw [hset, Finset.sum_Ico_eq_sum_range]
    simp
  · have h := weeklyLabel_map_eq 1 1 (fun d => (d : ℚ) + 1) 0 (List.range 7)
    rw [dailySeries, h]
    norm_num [List.range_succ, weekStart]

/-- C1 witness: the general weekly-label theorem applied to the concrete
one-week series with daily demands `1..7` starting at week-start `0`. -/
theorem weeklyLabel_exact_sum_witness :
    (0 % 7 = 0 ∧ 0 + 7 ≤ 7) ∧
    weeklyLabel (dailySeries 1 1 (fun d => (d : ℚ) + 1) 7) 1 1 0
      = ∑ i in Finset.range 7, ((i : ℚ) + 1) := by
  refine ⟨⟨rfl, by norm_num⟩, ?_⟩
  have h := weeklyLabel_exact_sum.1 1 1 (fun d => (d : ℚ) + 1) 7 0 rfl
    (by norm_num)
  simpa using h

/-- C2: noninterference of feature construction with future data.  Every
lag, rolling and place-aggregate feature value for date `D` is a function
only of series values dated strictly before `D`: (i) two runs whose demand,
place-demand and place-item-count series agree on all dates `< D` produce
identical feature values for `D`; (ii) in dataset form, re-running feature
construction after deleting every Demand Observation dated on or after `D`
produces identical feature values for date `D`. -/
theorem features_noninterference :
    (∀ (h₁ h₂ p₁ p₂ q₁ q₂ : ℕ → ℚ) (gs : GlobalStats) (D : ℕ),
      (∀ t, t < D → h₁ t = h₂ t) → (∀ t, t < D → p₁ t = p₂ t) →
      (∀ t, t < D → q₁ t = q₂ t) →
      buildLagRollingPlaceFeatures h₁ p₁ q₁ gs D
        = buildLagRollingPlaceFeatures h₂ p₂ q₂ gs D) ∧
    (∀ (obs : List DemandObs) (item place : ℤ) (gs : GlobalStats) (D : ℕ),
      buildLagRollingPlaceFeatures
          (itemDemandSeries (obs.filter (fun o => o.date < D)) item place)
          (placeDemandSeries (obs.filter (fun o => o.date < D)) place)
          (placeItemCountSeries (obs.filter (fun o => o.date < D)) place)
          gs D
        = buildLagRollingPlaceFeatures (itemDemandSeries obs item place)
            (placeDemandSeries obs place) (placeItemCountSeries obs place)
            gs D) := by
  refine ⟨buildFeatures_congr, fun obs item place gs D => ?_⟩
  exact buildFeatures_congr _ _ _ _ _ _ gs D
    (fun t ht => itemDemandSeries_truncate obs item place D t ht)
    (fun t ht => placeDemandSeries_truncate obs place D t ht)
    (fun t ht => placeItemCountSeries_truncate obs place D t ht)

/-- C2 witness: two concrete series that agree on days `0` and `1` but
differ from day `2` on give identical feature rows for target date `2`. -/
theorem features_noninterference_witness :
    (∀ t, t < 2 → (fun u : ℕ => if u < 2 then (u : ℚ) else 5) t
        = (fun u : ℕ => if u < 2 then (u : ℚ) else 99) t) ∧
    buildLagRollingPlaceFeatures (fun u => if u < 2 then (u : ℚ) else 5)
        (fun u => if u < 2 then (u : ℚ) else 5)
        (fun u => if u < 2 then (u : ℚ) else 5) ⟨3, 4, 5⟩ 2
      = buildLagRollingPlaceFeatures (fun u => if u < 2 then (u : ℚ) else 99)
        (fun u => if u < 2 then (u : ℚ) else 99)
        (fun u => if u < 2 then (u : ℚ) else 99) ⟨3, 4, 5⟩ 2 := by
  have hfun : ∀ t, t < 2 → (fun u : ℕ => if u < 2 then (u : ℚ) else 5) t
      = (fun u : ℕ => if u < 2 then (u : ℚ) else 99) t := by
    intro t ht
    simp [ht]
  exact ⟨hfun, features_noninterference.1 _ _ _ _ _ _ ⟨3, 4, 5⟩ 2
    hfun hfun hfun⟩

/-- C3: schema stability.  (i) The ordered column list of every single-row
inference vector equals the fixed `feature_columns` schema regardless of
period, model inputs or history; (ii) hence re-indexing any inference row
against the column list recorded at training time by the same builder
succeeds; (iii) a row whose columns differ from the recorded schema makes
the predictor fail loudly with the schema-mismatch error; (iv) re-indexing
never silently coerces: success forces exact column-list equality. -/
theorem schema_stability :
    (∀ (enc : DateParts → ℚ × ℚ × ℚ × ℚ) (dp : DateParts)
        (hist placeHist placeItems : ℕ → ℚ) (gs : GlobalStats)
        (itm : ItemStatic) (D : ℕ),
      (buildFeatureVector enc dp hist placeHist placeItems gs itm D).map
        Prod.fst = feature_columns) ∧
    (∀ (enc₁ : DateParts → ℚ × ℚ × ℚ × ℚ) (dp₁ : DateParts)
        (h₁ p₁ q₁ : ℕ → ℚ) (gs₁ : GlobalStats) (itm₁ : ItemStatic) (D₁ : ℕ)
        (enc₂ : DateParts → ℚ × ℚ × ℚ × ℚ) (dp₂ : DateParts)
        (h₂ p₂ q₂ : ℕ → ℚ) (gs₂ : GlobalStats) (itm₂ : ItemStatic) (D₂ : ℕ),
      reindexRow
          ((buildFeatureVector enc₁ dp₁ h₁ p₁ q₁ gs₁ itm₁ D₁).map Prod.fst)
          (buildFeatureVector enc₂ dp₂ h₂ p₂ q₂ gs₂ itm₂ D₂)
        = Except.ok
            ((buildFeatureVector enc₂ dp₂ h₂ p₂ q₂ gs₂ itm₂ D₂).map
              Prod.snd)) ∧
    (∀ (cols : List String) (row : List (String × ℚ)),
      row.map Prod.fst ≠ cols →
      reindexRow cols row = Except.error PredictError.schemaMismatch) ∧
    (∀ (cols : List String) (row : List (String × ℚ)) (v : List ℚ),
      reindexRow cols row = Except.ok v → row.map Prod.fst = cols) := by
  refine ⟨fun enc dp hist placeHist placeItems gs itm D =>
      featureVectorOf_names enc dp _ itm,
    fun enc₁ dp₁ h₁ p₁ q₁ gs₁ itm₁ D₁ enc₂ dp₂ h₂ p₂ q₂ gs₂ itm₂ D₂ => ?_,
    fun cols row hne => ?_, fun cols row v hok => ?_⟩
  · unfold reindexRow buildFeatureVector
    rw [featureVectorOf_names, featureVectorOf_names, if_pos rfl]
  · unfold reindexRow
    rw [if_neg hne]
  · unfold reindexRow at hok
    split_ifs at hok with h
    exact h

/-- C3 witness: a row with a wrong leading column is rejected loudly with
the schema-mismatch error, never coerced. -/
theorem schema_stability_witness :
    ([("wrong_column", (0 : ℚ))].map Prod.fst ≠ feature_columns) ∧
    reindexRow feature_columns [("wrong_column", (0 : ℚ))]
      = Except.error PredictError.schemaMismatch := by
  refine ⟨by decide, ?_⟩
  exact schema_stability.2.2.1 feature_columns [("wrong_column", (0 : ℚ))]
    (by decide)

/-- C4: a prediction query whose (item, place) pair has zero historical
demand rows returns a success result (`Except.ok`, never an error, never a
missing value) flagged `is_cold_start = true`, whose `predicted_demand` is
exactly the fitted model applied to the global-fallback feature row. -/
theorem coldStart_success (artifact : Artifact)
    (enc : DateParts → ℚ × ℚ × ℚ × ℚ) (obs : List DemandObs)
    (item place : ℤ) (dateStr : String) (dp : DateParts) (D : ℕ)
    (itm : ItemStatic) (hcols : artifact.feature_columns = feature_columns)
    (hhist : historyFor obs item place = []) :
    predict_demand artifact enc obs item place dateStr dp D itm
      = Except.ok
          { item_id := item, place_id := place, date := dateStr,
            period := artifact.period,
            predicted_demand := artifact.model
              ((fallbackFeatureVector enc dp artifact.global_stats itm).map
                Prod.snd),
            is_cold_start := true, model_type := artifact.model_type } := by
  unfold predict_demand
  rw [hhist, hcols]
  have hok : reindexRow feature_columns
      (fallbackFeatureVector enc dp artifact.global_stats itm)
      = Except.ok ((fallbackFeatureVector enc dp artifact.global_stats
          itm).map Prod.snd) := by
    unfold reindexRow fallbackFeatureVector
    rw [featureVectorOf_names, if_pos rfl]
  rw [List.length_nil, if_pos rfl, hok]

/-- C4 witness: a concrete artifact (constant model output `5`) queried for
an (item, place) pair with an empty observation list returns the cold-start
success result with `predicted_demand = 5`. -/
theorem coldStart_success_witness :
    (historyFor ([] : List DemandObs) 1 2 = []) ∧
    predict_demand
        ⟨feature_columns, fun _ => 5, ⟨3, 4, 50⟩, "daily", "xgboost"⟩
        (fun _ => (0, 0, 0, 0)) [] 1 2 "2024-03-01" ⟨2024, 3, 1, 4, 9, 1⟩ 10
        ⟨12, 12, 1, 7⟩
      = Except.ok
          { item_id := 1, place_id := 2, date := "2024-03-01",
            period := "daily", predicted_demand := 5,
            is_cold_start := true, model_type := "xgboost" } := by
  refine ⟨rfl, ?_⟩
  exact coldStart_success
    ⟨feature_columns, fun _ => 5, ⟨3, 4, 50⟩, "daily", "xgboost"⟩
    (fun _ => (0, 0, 0, 0)) [] 1 2 "2024-03-01" ⟨2024, 3, 1, 4, 9, 1⟩ 10
    ⟨12, 12, 1, 7⟩ rfl rfl

/-- C5: `validate_prediction_inputs` rejects `item_id = -1`,
`date = "2024-13-40"` (no 13th month, no 40th day) and `period = "yearly"`,
each with a distinct, identifiable `ValidationError`; and it accepts every
input whose ids are positive integers, whose date is a valid `YYYY-MM-DD`
calendar day and whose period is one of the three recognized values. -/
theorem validate_prediction_inputs_spec :
    validate_prediction_inputs (-1) 1 "2024-01-15" "daily"
      = Except.error ValidationError.nonPositiveItemId ∧
    validate_prediction_inputs 1 1 "2024-13-40" "daily"
      = Except.error ValidationError.invalidDateFormat ∧
    validate_prediction_inputs 1 1 "2024-01-15" "yearly"
      = Except.error ValidationError.invalidPeriod ∧
    (ValidationError.nonPositiveItemId ≠ ValidationError.invalidDateFormat ∧
      ValidationError.nonPositiveItemId ≠ ValidationError.invalidPeriod ∧
      ValidationError.invalidDateFormat ≠ ValidationError.invalidPeriod) ∧
    (∀ (item_id place_id : ℤ) (date pd : String),
      0 < item_id → 0 < place_id → isValidDate date = true →
      pd ∈ recognizedPeriods →
      validate_prediction_inputs item_id place_id date pd
        = Except.ok ()) := by
  refine ⟨rfl, rfl, rfl, by decide, ?_⟩
  intro item_id place_id date pd h1 h2 h3 h4
  unfold validate_prediction_inputs
  rw [if_neg (by omega), if_neg (by omega), if_neg (by simp [h3]),
    if_neg (by simp [h4])]

/-- C5 witness: the acceptance branch applied to the concrete valid input
`(3, 4, "2024-02-29", "weekly")` (a real leap-year day). -/
theorem validate_prediction_inputs_spec_witness :
    ((0 : ℤ) < 3 ∧ (0 : ℤ) < 4 ∧ isValidDate "2024-02-29" = true ∧
      "weekly" ∈ recognizedPeriods) ∧
    validate_prediction_inputs 3 4 "2024-02-29" "weekly"
      = Except.ok () := by
  refine ⟨⟨by norm_num, by norm_num, rfl, by decide⟩, ?_⟩
  exact validate_prediction_inputs_spec.2.2.2.2 3 4 "2024-02-29" "weekly"
    (by norm_num) (by norm_num) rfl (by decide)

/-- C6 (counterexample): the repository's only implemented prediction
interface, `fetchAIPrediction`, silently returns a linearly scaled daily
prediction: at the concrete input `days = 7` it returns exactly `7` times its
own `days = 1` answer (namely `70 = 10 * 7`), with no rejection and no
re-scaling flag in the result — refuting the claim that a period request is
never answered by silent linear scaling. -/
theorem fetchAIPrediction_silent_linear_scaling :
    fetchAIPrediction "42" 7 = 7 * fetchAIPrediction "42" 1 ∧
    fetchAIPrediction "42" 7 = 70 := by
  constructor <;> norm_num [fetchAIPrediction]

/-- C6 (amended): for every item and period length, `fetchAIPrediction`
returns exactly `10 * days` — an unconditional linear scaling of a fixed
10-units/day rate, with no rejection branch and no flag accompanying it. -/
theorem fetchAIPrediction_eq_ten_mul_days (itemId : String) (days : ℚ) :
    fetchAIPrediction itemId days = 10 * days := rfl

/-- C8: for `days > 0`, `calculateStockNeeds` returns
`aimStockLevel = ⌈(predictedDemand/days * leadTime + predictedDemand) * buffer⌉`
and `calculatedStock = max 0 (aimStockLevel - currentStock)`; hence the
recommended replenishment is never negative and is `0` whenever the current
stock already meets the aim level. -/
theorem calculateStockNeeds_spec (menuItemId : String)
    (predictedDemand currentStock days leadTime buffer : ℚ) (_hdays : 0 < days) :
    (calculateStockNeeds menuItemId predictedDemand currentStock days leadTime
        buffer).aimStockLevel =
      ⌈(predictedDemand / days * leadTime + predictedDemand) * buffer⌉ ∧
    (calculateStockNeeds menuItemId predictedDemand currentStock days leadTime
        buffer).calculatedStock =
      max 0 (((calculateStockNeeds menuItemId predictedDemand currentStock days
        leadTime buffer).aimStockLevel : ℚ) - currentStock) ∧
    0 ≤ (calculateStockNeeds menuItemId predictedDemand currentStock days
        leadTime buffer).calculatedStock ∧
    (((calculateStockNeeds menuItemId predictedDemand currentStock days
        leadTime buffer).aimStockLevel : ℚ) ≤ currentStock →
      (calculateStockNeeds menuItemId predictedDemand currentStock days
        leadTime buffer).calculatedStock = 0) := by
  refine ⟨rfl, rfl, le_max_left _ _, fun hle => ?_⟩
  simp only [calculateStockNeeds]
  exact max_eq_left (sub_nonpos.mpr hle)

/-- C8 witness: concrete run with demand 70 over 7 days, lead time 2,
buffer 1.2, current stock 100: aim level `⌈108⌉ = 108`, replenishment
`max 0 (108 - 100) = 8 ≥ 0`. -/
theorem calculateStockNeeds_spec_witness :
    (0 : ℚ) < 7 ∧
    ((calculateStockNeeds "item1" 70 100 7 2 (6/5)).aimStockLevel =
        ⌈((70 : ℚ) / 7 * 2 + 70) * (6/5)⌉ ∧
      (calculateStockNeeds "item1" 70 100 7 2 (6/5)).calculatedStock =
        max 0 (((calculateStockNeeds "item1" 70 100 7 2 (6/5)).aimStockLevel : ℚ)
          - 100) ∧
      0 ≤ (calculateStockNeeds "item1" 70 100 7 2 (6/5)).calculatedStock ∧
      (((calculateStockNeeds "item1" 70 100 7 2 (6/5)).aimStockLevel : ℚ) ≤ 100 →
        (calculateStockNeeds "item1" 70 100 7 2 (6/5)).calculatedStock = 0)) :=
  ⟨by norm_num, calculateStockNeeds_spec "item1" 70 100 7 2 (6/5) (by norm_num)⟩

/-- C9: in `calculateItemMAPE`, a day with actual `0` and predicted `0` adds
no error but increments the day count; a day with actual `0` and predicted
`> 0` adds exactly `1` (100% error) and increments the count; an empty
forecast list yields `mape = 0` (not a failure); and the returned `mape` is
always non-negative. -/
theorem calculateItemMAPE_spec :
    (∀ acc : ℚ × ℕ, mapeStep acc 0 0 = (acc.1, acc.2 + 1)) ∧
    (∀ (acc : ℚ × ℕ) (p : ℚ), 0 < p →
      mapeStep acc 0 p = (acc.1 + 1, acc.2 + 1)) ∧
    (∀ salesByDay, calculateItemMAPE [] salesByDay =
      { mape := 0, daysAnalyzed := 0 }) ∧
    (∀ forecasts salesByDay,
      0 ≤ (calculateItemMAPE forecasts salesByDay).mape) := by
  refine ⟨fun acc => by simp [mapeStep],
    fun acc p hp => by simp [mapeStep, ne_of_gt hp],
    fun salesByDay => by simp [calculateItemMAPE],
    fun forecasts salesByDay => ?_⟩
  simp only [calculateItemMAPE]
  split_ifs with h1 h2
  · exact le_refl (0 : ℚ)
  · exact le_refl (0 : ℚ)
  · exact round4_nonneg _ (div_nonneg
      (mape_foldl_nonneg salesByDay forecasts (0, 0) (le_refl (0 : ℚ)))
      (by positivity))

/-- C9 witness: a day with actual `0` and predicted `3` contributes exactly
one full error unit and one counted day. -/
theorem calculateItemMAPE_spec_witness :
    (0 : ℚ) < 3 ∧ mapeStep (0, 0) 0 3 = (1, 1) := by
  refine ⟨by norm_num, ?_⟩
  have h := calculateItemMAPE_spec.2.1 (0, 0) 3 (by norm_num)
  simpa using h

/-- C10: every alert produced by `generateStockAlerts` has severity
CRITICAL, WARNING or INFO; an item with `currentStock ≤ 0` always yields the
CRITICAL "Out of Stock" alert (the trivial-item skip never applies to it);
and `getDashboardSummary` satisfies
`totalAlerts = critical + warning + info` on every produced alert list. -/
theorem stockAlerts_spec :
    (∀ (stockResults : List StockItemResult) (t : ℚ),
      ∀ a ∈ generateStockAlerts stockResults t,
        a.severity = "CRITICAL" ∨ a.severity = "WARNING" ∨
          a.severity = "INFO") ∧
    (∀ (item : StockItemResult) (t : ℚ), item.currentStock ≤ 0 →
      evaluateItem item t =
        some ⟨item.menuItemId, "CRITICAL", "Out of Stock", item.itemType⟩) ∧
    (∀ (stockResults : List StockItemResult) (t : ℚ),
      (getDashboardSummary (generateStockAlerts stockResults t)).totalAlerts =
        (getDashboardSummary (generateStockAlerts stockResults t)).critical +
        (getDashboardSummary (generateStockAlerts stockResults t)).warning +
        (getDashboardSummary (generateStockAlerts stockResults t)).info) := by
  have hsev : ∀ (stockResults : List StockItemResult) (t : ℚ),
      ∀ a ∈ generateStockAlerts stockResults t,
        a.severity = "CRITICAL" ∨ a.severity = "WARNING" ∨
          a.severity = "INFO" := by
    intro stockResults t a ha
    unfold generateStockAlerts at ha
    obtain ⟨item, _, hitem⟩ := List.mem_filterMap.mp ha
    exact evaluateItem_severity item t a hitem
  refine ⟨hsev, fun item t hcs => ?_, fun stockResults t => ?_⟩
  · unfold evaluateItem
    rw [if_neg (fun hand => absurd hand.2 (not_lt.mpr hcs)), if_pos hcs]
  · exact alert_count_partition _ (hsev stockResults t)

/-- C10 witness: an out-of-stock item (stock `0`, aim `5`) yields the
CRITICAL "Out of Stock" alert, and on the singleton result list the summary
counts add up: `1 = 1 + 0 + 0`. -/
theorem stockAlerts_spec_witness :
    (evaluateItem ⟨"i1", 0, 5, 8, "ingredient"⟩ 20 =
      some ⟨"i1", "CRITICAL", "Out of Stock", "ingredient"⟩) ∧
    (getDashboardSummary
        (generateStockAlerts [⟨"i1", 0, 5, 8, "ingredient"⟩] 20)).totalAlerts =
      (getDashboardSummary
        (generateStockAlerts [⟨"i1", 0, 5, 8, "ingredient"⟩] 20)).critical +
      (getDashboardSummary
        (generateStockAlerts [⟨"i1", 0, 5, 8, "ingredient"⟩] 20)).warning +
      (getDashboardSummary
        (generateStockAlerts [⟨"i1", 0, 5, 8, "ingredient"⟩] 20)).info :=
  ⟨stockAlerts_spec.2.1 ⟨"i1", 0, 5, 8, "ingredient"⟩ 20 (by norm_num),
   stockAlerts_spec.2.2 [⟨"i1", 0, 5, 8, "ingredient"⟩] 20⟩

/-- C7: over the external prediction interface, (i) any request with a
missing or malformed required field gets the 400-equivalent response whose
error payload enumerates exactly the offending fields; (ii) a well-formed
request arriving when no trained artifact exists gets the 503-equivalent
response; (iii) those two response shapes are distinct; (iv) concretely, a
request missing only `place_id` is answered with exactly `["place_id"]`, as
in the spec's example. -/
theorem rest_error_responses :
    (∀ (artifact? : Option Artifact) (enc : DateParts → ℚ × ℚ × ℚ × ℚ)
        (obs : List DemandObs) (dp : DateParts) (D : ℕ) (itm : ItemStatic)
        (r : PredictRequest),
      offendingFields r ≠ [] →
      handlePredict artifact? enc obs dp D itm r
        = ApiResponse.badRequest (offendingFields r)) ∧
    (∀ (enc : DateParts → ℚ × ℚ × ℚ × ℚ) (obs : List DemandObs)
        (dp : DateParts) (D : ℕ) (itm : ItemStatic) (r : PredictRequest),
      offendingFields r = [] →
      handlePredict none enc obs dp D itm r
        = ApiResponse.serviceUnavailable
            "Model is not trained. Please train the model first.") ∧
    (∀ (l : List String) (m : String),
      ApiResponse.badRequest l ≠ ApiResponse.serviceUnavailable m) ∧
    offendingFields ⟨some 1, none, some "2024-03-01", none⟩
      = ["place_id"] := by
  refine ⟨fun artifact? enc obs dp D itm r hne => ?_,
    fun enc obs dp D itm r h => ?_,
    fun l m hc => ApiResponse.noConfusion hc, rfl⟩
  · unfold handlePredict
    rw [if_neg hne]
  · unfold handlePredict
    rw [if_pos h]

/-- C7 witness: the concrete request missing only `place_id` is answered
with the 400-equivalent response enumerating exactly `["place_id"]`. -/
theorem rest_error_responses_witness :
    (offendingFields ⟨some 1, none, some "2024-03-01", none⟩ ≠ []) ∧
    handlePredict none (fun _ => (0, 0, 0, 0)) [] ⟨2024, 3, 1, 4, 9, 1⟩ 0
        ⟨0, 0, 0, 0⟩ ⟨some 1, none, some "2024-03-01", none⟩
      = ApiResponse.badRequest ["place_id"] := by
  refine ⟨by decide, ?_⟩
  have h2 := rest_error_responses.1 none (fun _ => (0, 0, 0, 0)) []
    ⟨2024, 3, 1, 4, 9, 1⟩ 0 ⟨0, 0, 0, 0⟩
    ⟨some 1, none, some "2024-03-01", none⟩ (by decide)
  exact h2.trans (congrArg ApiResponse.badRequest (by decide))

end InventoryBackend
